import Mathlib

/-!
Shallow embedding of the Orkli Termowifi integration's protocol engine
(`termowifi_tools.py` and `termowifi_connector.py`, the
`custom_components/orkli_termowifi` variant, which the spec designates as
the intended target behavior).

Python floats are modelled by `ℚ`.  Every float computation the embedded
code performs on its actual inputs (byte values, temperatures in 0.5 °C
steps) involves only sums, differences and products of multiples of 0.5
with magnitude far below 2^53, all of which are exact in IEEE double
precision, so the rational model computes the very same values.  Python's
`int(x)` truncates toward zero, modelled by `pyInt`.  Python's `%` on
integers returns a value in `[0, n)` for a positive modulus `n`, which is
`Int.emod` (the `%` of `ℤ` in Lean) and plain `Nat.mod` on `ℕ`.
-/

namespace Termowifi

/-- Python `int(x)` truncation toward zero on a rational. -/
def pyInt (q : ℚ) : ℤ := if 0 ≤ q then ⌊q⌋ else ⌈q⌉

/-! ### termowifi_tools.py (value codec)

The Python functions take `offset` as a defaulted parameter (`offset=30`);
every call site uses the default, and the embedding passes it explicitly. -/

/-- Source `temperature_from_value(value, offset=30)`:
`(value - offset) * 0.5 + 15`. -/
def temperature_from_value (value offset : ℚ) : ℚ :=
  (value - offset) * (1 / 2) + 15

/-- Source `value_from_temperature(temperature, offset=30)`:
`int((temperature - 15) / 0.5) + offset`. -/
def value_from_temperature (temperature : ℚ) (offset : ℤ) : ℤ :=
  pyInt ((temperature - 15) / (1 / 2)) + offset

/-- Source `value_to_ambient(value)`: `45.5 - (value - 71) * 0.5`. -/
def value_to_ambient (value : ℚ) : ℚ :=
  45.5 - (value - 71) * (1 / 2)

/-- Source `ambient_to_value(temperature)`:
`(45.5 + temperature) / 0.5 + 71`, exactly as written in the code. -/
def ambient_to_value (temperature : ℚ) : ℚ :=
  (45.5 + temperature) / (1 / 2) + 71

/-- Source `value_to_humidity(value)`: `int(value * 100.0 / 255.0)`.
For integer byte inputs the float quotient is never within rounding error
of crossing an integer boundary, so the rational truncation is exact. -/
def value_to_humidity (value : ℚ) : ℤ :=
  pyInt (value * 100 / 255)

/-! ### termowifi_connector.py: headers, enums, trace builders -/

/-- Enum `TraceHeader` of `termowifi_connector.py`. -/
inductive TraceHeader
  | SEND_COMMAND
  | VALID_ANSWER
  | VALID_CONFIRMATION
deriving DecidableEq

/-- The four header bytes of each `TraceHeader` member. -/
def TraceHeader.value : TraceHeader → List ℕ
  | .SEND_COMMAND => [0x3B, 0x01, 0xFE, 0x04]
  | .VALID_ANSWER => [0x3B, 0x01, 0x01, 0x04]
  | .VALID_CONFIRMATION => [0x3B, 0xFE, 0x01, 0x01]

/-- Enum `State` (power). -/
inductive State
  | ON
  | OFF
deriving DecidableEq

/-- Enum `OperationState` (heat/cool mode). -/
inductive OperationState
  | HEAT
  | COOL
deriving DecidableEq

/-- Python `bytes([a, b, c])`: succeeds only when each element lies in
`[0, 255]` (otherwise `bytes` raises `ValueError`). -/
def pyBytes3 (a b c : ℤ) : Option (List ℕ) :=
  if 0 ≤ a ∧ a ≤ 255 ∧ 0 ≤ b ∧ b ≤ 255 ∧ 0 ≤ c ∧ c ≤ 255 then
    some [a.toNat, b.toNat, c.toNat]
  else
    none

/-- Method `TraceGenerator.switch_trace(state)` for a generator built with
`room_id`: `cid = 0 + room_id*4`, `data1 = 3` for ON else `2`,
`checksum = (cid + data1 + 3) % 256`, frame = SEND_COMMAND header +
`bytes([cid, data1, checksum])`. -/
def switch_trace (room_id : ℕ) (state : State) : Option (List ℕ) :=
  let base_command : ℤ := 0x00
  let cid : ℤ := base_command + room_id * 4
  let data1 : ℤ := if state = State.ON then 0x03 else 0x02
  let checksum : ℤ := (cid + data1 + 0x03) % 256
  (pyBytes3 cid data1 checksum).map (fun t => TraceHeader.SEND_COMMAND.value ++ t)

/-- Method `TraceGenerator.switch_operation_mode(state)`: `cid = 1 + room_id*4`,
`data1 = 2` for HEAT, `3` for COOL. -/
def switch_operation_mode (room_id : ℕ) (state : OperationState) : Option (List ℕ) :=
  let base_command : ℤ := 0x01
  let cid : ℤ := base_command + room_id * 4
  let data1 : ℤ := if state = OperationState.HEAT then 0x02 else 0x03
  let checksum : ℤ := (cid + data1 + 0x03) % 256
  (pyBytes3 cid data1 checksum).map (fun t => TraceHeader.SEND_COMMAND.value ++ t)

/-- Method `TraceGenerator.change_temperature_trace(temperature)`:
`cid = 2 + room_id*4`, `data1 = value_from_temperature(temperature)`. -/
def change_temperature_trace (room_id : ℕ) (temperature : ℚ) : Option (List ℕ) :=
  let base_command : ℤ := 0x02
  let cid : ℤ := base_command + room_id * 4
  let data1 : ℤ := value_from_temperature temperature 30
  let checksum : ℤ := (cid + data1 + 0x03) % 256
  (pyBytes3 cid data1 checksum).map (fun t => TraceHeader.SEND_COMMAND.value ++ t)

/-- Method `TraceGenerator.info_trace()`: `cid = 3 + room_id*4`, `data1 = 0`. -/
def info_trace (room_id : ℕ) : Option (List ℕ) :=
  let base_command : ℤ := 0x03
  let cid : ℤ := base_command + room_id * 4
  let data1 : ℤ := 0x00
  let checksum : ℤ := (cid + data1 + 0x03) % 256
  (pyBytes3 cid data1 checksum).map (fun t => TraceHeader.SEND_COMMAND.value ++ t)

/-- Free function `_valid_header_response(self, response)`: classify the
first four bytes as VALID_ANSWER or VALID_CONFIRMATION, else `None`. -/
def valid_header_response (response : List ℕ) : Option TraceHeader :=
  if response.take 4 = TraceHeader.VALID_ANSWER.value then
    some TraceHeader.VALID_ANSWER
  else if response.take 4 = TraceHeader.VALID_CONFIRMATION.value then
    some TraceHeader.VALID_CONFIRMATION
  else
    none

/-! ### termowifi_connector.py: Room -/

/-- Class `Room`.  `updated_callback` records whether the host has
registered a change callback (`None` in `__init__`, assigned by the
climate entity); the socket-free fields (`name`, `trace_generator`) are
determined by `id` and carried implicitly. -/
structure Room where
  id : ℕ
  state : Option State
  operation_state : Option OperationState
  temperature : Option ℚ
  conf_temperature : Option ℚ
  humidity : Option ℤ
  updated_callback : Bool
deriving DecidableEq

/-- Constructor `Room.__init__(id)`: every decoded field starts unknown and no
callback is registered yet. -/
def Room.init (id : ℕ) : Room :=
  { id := id
    state := none
    operation_state := none
    temperature := none
    conf_temperature := none
    humidity := none
    updated_callback := false }

/-- Class `Room`, method `parse_response(response, header_type)`.
Returns `(updated room, processed, callback fired)`.  The Python method
mutates `self` field by field and invokes `self.updated_callback()` at
most once, at the end, when `processed and value_changed and
self.updated_callback`; the embedding returns the updated room together
with the `processed` result and whether the callback was invoked. -/
def Room.parse_response (self : Room) (response : List ℕ)
    (header_type : Option TraceHeader) : Room × Bool × Bool :=
  let command := response.getD 4 0
  let value := response.getD 5 0
  let checksum := response.getD 6 0
  let checksum_diff : ℕ :=
    if header_type = some TraceHeader.VALID_CONFIRMATION then 0x00 else 0x06
  if value = 0x00 then
    (self, true, false)
  else
    let base_info := self.id * 4
    let step : Room × Bool × Bool :=
      if command = base_info ∧ checksum = (command + value + checksum_diff) % 256 then
        if value = 0x03 then
          ({ self with state := some State.ON }, true,
            if self.state = some State.ON then false else true)
        else if value = 0x02 then
          ({ self with state := some State.OFF }, true,
            if self.state = some State.OFF then false else true)
        else
          (self, true, false)
      else if command = base_info + 1 ∧
          checksum = (command + value + checksum_diff) % 256 then
        if value = 0x02 then
          ({ self with operation_state := some OperationState.HEAT }, true,
            if self.operation_state = some OperationState.HEAT then false else true)
        else if value = 0x03 then
          ({ self with operation_state := some OperationState.COOL }, true,
            if self.operation_state = some OperationState.COOL then false else true)
        else
          (self, true, false)
      else if command = base_info + 2 ∧
          checksum = (command + value + checksum_diff) % 256 then
        let new_conf_temperature := temperature_from_value value 30
        ({ self with conf_temperature := some new_conf_temperature }, true,
          if self.conf_temperature = some new_conf_temperature then false else true)
      else if command = base_info + 3 ∧
          checksum = (command + value + checksum_diff) % 256 then
        let new_temperature := value_to_ambient value
        ({ self with temperature := some new_temperature }, true,
          if self.temperature = some new_temperature then false else true)
      else if command = self.id + 0x64 ∧
          checksum = (command + value + checksum_diff) % 256 then
        let new_humidity := value_to_humidity value
        ({ self with humidity := some new_humidity }, true,
          if self.humidity = some new_humidity then false else true)
      else
        (self, false, false)
    (step.1, step.2.1, step.2.1 && step.2.2 && self.updated_callback)

/-! ### termowifi_connector.py: TermowifiConnector (registry/dispatch)

Only the protocol-relevant state is modelled: the insertion-ordered room
map (a Python `dict[int, Room]`, here an association list) — host, port
and the asyncio socket plumbing carry no protocol state.  Dispatcher
events (`async_dispatcher_send` of a new room, and the per-room change
callbacks) are returned explicitly. -/

/-- Observable events emitted while processing one frame. -/
inductive TEvent
  | newRoom (id : ℕ)
  | roomChanged (id : ℕ)
deriving DecidableEq

/-- Which code path consumed an inbound frame in
`process_socket_response`: the registry's discovery logic
(`_parse_response` returned True), a room's `parse_response` during the
room loop, the `SEND_COMMAND` echo branch, the unknown-header discard
branch, or nobody (the "Unprocessed valid response" warning). -/
inductive Consumer
  | registry
  | room (rid : ℕ)
  | ack
  | discarded
  | unprocessed
deriving DecidableEq

/-- Class `TermowifiConnector`: the room registry. -/
structure TermowifiConnector where
  rooms : List (ℕ × Room)
deriving DecidableEq

/-- Method `TermowifiConnector._parse_response(response, header_type)`:
discovery interpretation.  Returns the updated connector, the
`processed` flag, and the dispatcher events sent. -/
def TermowifiConnector.parse_response_reg (self : TermowifiConnector)
    (response : List ℕ) (header_type : Option TraceHeader) :
    TermowifiConnector × Bool × List TEvent :=
  let cid := response.getD 4 0
  let data := response.getD 5 0
  let checksum := response.getD 6 0
  let checksum_diff : ℕ :=
    if header_type = some TraceHeader.VALID_CONFIRMATION then 0x00 else 0x06
  let checksum_calc := (cid + data + checksum_diff) % 256
  if checksum ≠ checksum_calc then
    (self, false, [])
  else if 0x32 ≤ cid ∧ cid ≤ 0x36 then
    if data = 0x00 then
      let room_id := cid - 0x32
      if room_id ∈ self.rooms.map Prod.fst then
        (self, true, [])
      else
        ({ rooms := self.rooms ++ [(room_id, Room.init room_id)] }, true,
          [TEvent.newRoom room_id])
    else
      (self, false, [])
  else
    (self, false, [])

/-- The `for room in self.rooms.values()` loop of
`process_socket_response`: offer the frame to each room in order, stop at
the first whose `parse_response` returns True.  Returns the room list
(each visited room replaced by its post-call state), the id of the
consuming room if any, and the change events fired. -/
def dispatch_rooms (rooms : List (ℕ × Room)) (response : List ℕ)
    (header_type : Option TraceHeader) :
    List (ℕ × Room) × Option ℕ × List TEvent :=
  match rooms with
  | [] => ([], none, [])
  | (rid, room) :: rest =>
    let res := room.parse_response response header_type
    if res.2.1 then
      ((rid, res.1) :: rest, some rid,
        if res.2.2 then [TEvent.roomChanged rid] else [])
    else
      let tail := dispatch_rooms rest response header_type
      ((rid, res.1) :: tail.1, tail.2.1, tail.2.2)

/-- Method `TermowifiConnector.process_socket_response(response)`:
classify the header; for answer/confirmation frames try the registry's
`_parse_response` first and fall back to the room loop; acknowledge
SEND_COMMAND echoes; discard everything else. -/
def TermowifiConnector.process_socket_response (self : TermowifiConnector)
    (response : List ℕ) : TermowifiConnector × List TEvent × Consumer :=
  match valid_header_response response with
  | some h =>
    let pr := self.parse_response_reg response (some h)
    if pr.2.1 then
      (pr.1, pr.2.2, Consumer.registry)
    else
      let d := dispatch_rooms self.rooms response (some h)
      match d.2.1 with
      | some rid => ({ rooms := d.1 }, d.2.2, Consumer.room rid)
      | none => ({ rooms := d.1 }, d.2.2, Consumer.unprocessed)
  | none =>
    if response.take 4 = TraceHeader.SEND_COMMAND.value then
      (self, [], Consumer.ack)
    else
      (self, [], Consumer.discarded)

/-- Fold `process_socket_response` over a list of inbound frames,
accumulating the emitted events (this is what `_read_socket` does with
the 7-byte slices of the stream, in order). -/
def TermowifiConnector.process_all (self : TermowifiConnector)
    (responses : List (List ℕ)) : TermowifiConnector × List TEvent :=
  match responses with
  | [] => (self, [])
  | r :: rest =>
    let step := self.process_socket_response r
    let next := step.1.process_all rest
    (next.1, step.2.1 ++ next.2)

/-- Method `TermowifiConnector.set_temperature(room_id, temperature)`:
look the room up, build its `change_temperature_trace`, and send it with
`repeat=2` — `_async_send_trace` writes the identical byte string
`repeat` times in direct succession.  The result is the list of writes
performed (empty when the room is unknown; `none` stands for the
`ValueError` that `bytes` would raise on an out-of-range data byte). -/
def TermowifiConnector.set_temperature (self : TermowifiConnector)
    (room_id : ℕ) (temperature : ℚ) : Option (List (List ℕ)) :=
  match self.rooms.lookup room_id with
  | some room =>
    match change_temperature_trace room.id temperature with
    | some trace => some (List.replicate 2 trace)
    | none => none
  | none => some []

/-! ### Connection supervisor backoff (`_reader_loop`)

The supervisor's retry logic, lifted to a step function on the `backoff`
value: `_reader_loop` starts with `backoff = 1`; a successful connect
runs `backoff = 1`; every caught connect/read failure runs
`await asyncio.sleep(backoff)` followed by `backoff = min(backoff * 2, 60)`.
A run is a list of such events; `backoff_run` returns the final backoff
value together with the list of sleep durations performed, in order. -/

/-- One observable event of the supervisor loop. -/
inductive ConnEvent
  | success
  | failure
deriving DecidableEq

/-- Effect of one `_reader_loop` iteration on `(backoff, sleeps)`:
`backoff = 1` on success; sleep the current backoff then
`backoff = min(backoff * 2, 60)` on failure. -/
def backoff_step (acc : ℕ × List ℕ) : ConnEvent → ℕ × List ℕ
  | ConnEvent.success => (1, acc.2)
  | ConnEvent.failure => (min (acc.1 * 2) 60, acc.2 ++ [acc.1])

/-- Run the supervisor from its initial state (`backoff = 1`). -/
def backoff_run (events : List ConnEvent) : ℕ × List ℕ :=
  events.foldl backoff_step (1, [])

/-- The two inbound header classes are distinct (used to evaluate the
`checksum_diff` selection in proofs). -/
theorem valid_answer_ne_confirmation :
    TraceHeader.VALID_ANSWER ≠ TraceHeader.VALID_CONFIRMATION := by decide

/-! ### Claims -/

/-- Helper: the common shape of all four trace builders — whenever
`bytes([cid, data1, checksum])` succeeds with
`checksum = (cid + data1 + 3) % 256`, the trailing byte of the built
frame is `(frame[4] + frame[5] + 3) % 256`. -/
theorem build_trailing_checksum (cid data1 : ℤ) (f : List ℕ)
    (h : (pyBytes3 cid data1 ((cid + data1 + 0x03) % 256)).map
        (fun t => TraceHeader.SEND_COMMAND.value ++ t) = some f) :
    f.getD 6 0 = (f.getD 4 0 + f.getD 5 0 + 3) % 256 := by
  unfold pyBytes3 at h
  split at h
  · next hcond =>
    obtain ⟨h0, h1, h2, h3, -, -⟩ := hcond
    simp only [Option.map_some', Option.some.injEq, TraceHeader.value,
      List.cons_append, List.nil_append] at h
    subst h
    simp only [List.cons_append, List.nil_append, List.getD_cons_succ,
      List.getD_cons_zero]
    omega
  · simp at h

/-- Helper: a five-way if-chain of `true`s equals `true` exactly when
one of the conditions holds (the shape of the field-dispatch chain in
`Room.parse_response` after projecting out `processed`). -/
theorem ite_chain5 (c1 c2 c3 c4 c5 : Prop) [Decidable c1] [Decidable c2]
    [Decidable c3] [Decidable c4] [Decidable c5] :
    (ite c1 true (ite c2 true (ite c3 true (ite c4 true (ite c5 true false)))) = true) ↔
      (c1 ∨ c2 ∨ c3 ∨ c4 ∨ c5) := by
  split_ifs <;> simp_all

/-- Helper: characterization of `Room.parse_response`'s `processed`
result on a non-keep-alive frame: the frame is claimed exactly when the
checksum matches with the offset selected by the header class and the
cid addresses one of this room's five channels. -/
theorem room_processed_iff (room : Room) (response : List ℕ)
    (header_type : Option TraceHeader)
    (hdata : response.getD 5 0 ≠ 0) :
    (room.parse_response response header_type).2.1 = true ↔
      (response.getD 6 0 = (response.getD 4 0 + response.getD 5 0 +
          (if header_type = some TraceHeader.VALID_CONFIRMATION then 0 else 6)) % 256 ∧
        (response.getD 4 0 = room.id * 4 ∨
          response.getD 4 0 = room.id * 4 + 1 ∨
          response.getD 4 0 = room.id * 4 + 2 ∨
          response.getD 4 0 = room.id * 4 + 3 ∨
          response.getD 4 0 = room.id + 0x64)) := by
  simp only [Room.parse_response]
  rw [if_neg hdata]
  simp only [apply_ite (fun p : Room × Bool × Bool => p.2.1), ite_self]
  rw [ite_chain5]
  tauto

/-- Helper: characterization of the registry's
`TermowifiConnector._parse_response` `processed` result: the discovery
path claims a frame exactly when the checksum matches with the offset of
the header class, the cid lies in `[0x32, 0x36]`, and the data byte is
zero. -/
theorem registry_processed_iff (conn : TermowifiConnector)
    (response : List ℕ) (header_type : Option TraceHeader) :
    (conn.parse_response_reg response header_type).2.1 = true ↔
      (response.getD 6 0 = (response.getD 4 0 + response.getD 5 0 +
          (if header_type = some TraceHeader.VALID_CONFIRMATION then 0 else 6)) % 256 ∧
        0x32 ≤ response.getD 4 0 ∧ response.getD 4 0 ≤ 0x36 ∧
        response.getD 5 0 = 0) := by
  simp only [TermowifiConnector.parse_response_reg]
  split_ifs <;> simp_all

/-- Claim C2: every frame the four trace builders emit carries the trailing
checksum byte `(cid + data + 3) mod 256`, and inbound validation — both
the per-room field dispatch and the registry's discovery path — accepts
a frame only under trailing byte `(cid + data + 6) mod 256` for a
VALID_ANSWER header and `(cid + data + 0) mod 256` for a
VALID_CONFIRMATION header (together with the respective addressing
conditions). -/
theorem c2_checksum_offsets :
    (∀ (rid : ℕ) (st : State) (f : List ℕ), switch_trace rid st = some f →
      f.getD 6 0 = (f.getD 4 0 + f.getD 5 0 + 3) % 256) ∧
    (∀ (rid : ℕ) (st : OperationState) (f : List ℕ),
      switch_operation_mode rid st = some f →
      f.getD 6 0 = (f.getD 4 0 + f.getD 5 0 + 3) % 256) ∧
    (∀ (rid : ℕ) (t : ℚ) (f : List ℕ), change_temperature_trace rid t = some f →
      f.getD 6 0 = (f.getD 4 0 + f.getD 5 0 + 3) % 256) ∧
    (∀ (rid : ℕ) (f : List ℕ), info_trace rid = some f →
      f.getD 6 0 = (f.getD 4 0 + f.getD 5 0 + 3) % 256) ∧
    (∀ (room : Room) (response : List ℕ), response.getD 5 0 ≠ 0 →
      ((room.parse_response response (some TraceHeader.VALID_ANSWER)).2.1 = true ↔
        (response.getD 6 0 =
            (response.getD 4 0 + response.getD 5 0 + 6) % 256 ∧
          (response.getD 4 0 = room.id * 4 ∨
            response.getD 4 0 = room.id * 4 + 1 ∨
            response.getD 4 0 = room.id * 4 + 2 ∨
            response.getD 4 0 = room.id * 4 + 3 ∨
            response.getD 4 0 = room.id + 0x64))) ∧
      ((room.parse_response response (some TraceHeader.VALID_CONFIRMATION)).2.1 = true ↔
        (response.getD 6 0 =
            (response.getD 4 0 + response.getD 5 0 + 0) % 256 ∧
          (response.getD 4 0 = room.id * 4 ∨
            response.getD 4 0 = room.id * 4 + 1 ∨
            response.getD 4 0 = room.id * 4 + 2 ∨
            response.getD 4 0 = room.id * 4 + 3 ∨
            response.getD 4 0 = room.id + 0x64)))) ∧
    (∀ (conn : TermowifiConnector) (response : List ℕ),
      ((conn.parse_response_reg response (some TraceHeader.VALID_ANSWER)).2.1 = true ↔
        (response.getD 6 0 =
            (response.getD 4 0 + response.getD 5 0 + 6) % 256 ∧
          0x32 ≤ response.getD 4 0 ∧ response.getD 4 0 ≤ 0x36 ∧
          response.getD 5 0 = 0)) ∧
      ((conn.parse_response_reg response (some TraceHeader.VALID_CONFIRMATION)).2.1 = true ↔
        (response.getD 6 0 =
            (response.getD 4 0 + response.getD 5 0 + 0) % 256 ∧
          0x32 ≤ response.getD 4 0 ∧ response.getD 4 0 ≤ 0x36 ∧
          response.getD 5 0 = 0))) := by
  refine ⟨?_, ?_, ?_, ?_, ?_, ?_⟩
  · intro rid st f h
    simp only [switch_trace] at h
    exact build_trailing_checksum _ _ f h
  · intro rid st f h
    simp only [switch_operation_mode] at h
    exact build_trailing_checksum _ _ f h
  · intro rid t f h
    simp only [change_temperature_trace] at h
    exact build_trailing_checksum _ _ f h
  · intro rid f h
    simp only [info_trace] at h
    exact build_trailing_checksum _ _ f h
  · intro room response hdata
    constructor
    · simpa using room_processed_iff room response
        (some TraceHeader.VALID_ANSWER) hdata
    · simpa using room_processed_iff room response
        (some TraceHeader.VALID_CONFIRMATION) hdata
  · intro conn response
    constructor
    · simpa using registry_processed_iff conn response
        (some TraceHeader.VALID_ANSWER)
    · simpa using registry_processed_iff conn response
        (some TraceHeader.VALID_CONFIRMATION)

/-- Witness for C2 at concrete inputs: `info_trace` for room 1 builds
`3B 01 FE 04 07 00 0A` whose trailing byte is `(7 + 0 + 3) % 256`, and a
fresh room 0 accepts the VALID_ANSWER frame `3B 01 01 04 03 21 2A`
(checksum offset 6) while the registry accepts the discovery frame
`3B 01 01 04 32 00 38`. -/
theorem c2_checksum_offsets_witness :
    ([0x3B, 0x01, 0xFE, 0x04, 0x07, 0x00, 0x0A] : List ℕ).getD 6 0 =
      (([0x3B, 0x01, 0xFE, 0x04, 0x07, 0x00, 0x0A] : List ℕ).getD 4 0 +
        ([0x3B, 0x01, 0xFE, 0x04, 0x07, 0x00, 0x0A] : List ℕ).getD 5 0 + 3) % 256 ∧
    ((Room.init 0).parse_response [0x3B, 0x01, 0x01, 0x04, 0x03, 0x21, 0x2A]
      (some TraceHeader.VALID_ANSWER)).2.1 = true ∧
    ((TermowifiConnector.mk []).parse_response_reg
      [0x3B, 0x01, 0x01, 0x04, 0x32, 0x00, 0x38]
      (some TraceHeader.VALID_ANSWER)).2.1 = true := by
  refine ⟨?_, ?_, ?_⟩
  · exact c2_checksum_offsets.2.2.2.1 1
      [0x3B, 0x01, 0xFE, 0x04, 0x07, 0x00, 0x0A] (by decide)
  · exact ((c2_checksum_offsets.2.2.2.2.1 (Room.init 0)
      [0x3B, 0x01, 0x01, 0x04, 0x03, 0x21, 0x2A] (by decide)).1).mpr
      (by refine ⟨by decide, ?_⟩; decide)
  · exact ((c2_checksum_offsets.2.2.2.2.2 (TermowifiConnector.mk [])
      [0x3B, 0x01, 0x01, 0x04, 0x32, 0x00, 0x38]).1).mpr (by decide)

/-- Helper: the `0x00` keep-alive early return of `Room.parse_response`,
shared by several claim proofs below. -/
theorem parse_keepalive (room : Room) (response : List ℕ)
    (header_type : Option TraceHeader)
    (hdata : response.getD 5 0 = 0) :
    room.parse_response response header_type = (room, true, false) := by
  simp only [Room.parse_response, hdata]
  norm_num

/-- Helper: outcome of `Room.parse_response` in the power-status branch
(`cid = id*4`, checksum valid, data nonzero). -/
theorem parse_state_branch (room : Room) (response : List ℕ)
    (header_type : Option TraceHeader)
    (h0 : response.getD 5 0 ≠ 0)
    (hcmd : response.getD 4 0 = room.id * 4)
    (hchk : response.getD 6 0 = (response.getD 4 0 + response.getD 5 0 +
      (if header_type = some TraceHeader.VALID_CONFIRMATION then 0 else 6)) % 256) :
    room.parse_response response header_type =
      if response.getD 5 0 = 3 then
        ({ room with state := some State.ON }, true,
          ((if room.state = some State.ON then false else true) &&
            room.updated_callback : Bool))
      else if response.getD 5 0 = 2 then
        ({ room with state := some State.OFF }, true,
          ((if room.state = some State.OFF then false else true) &&
            room.updated_callback : Bool))
      else (room, true, false) := by
  simp only [Room.parse_response]
  rw [if_neg h0, if_pos ⟨hcmd, hchk⟩]
  split_ifs <;> simp

/-- Helper: outcome of `Room.parse_response` in the operation-mode branch
(`cid = id*4 + 1`, checksum valid, data nonzero, power branch not
taken). -/
theorem parse_mode_branch (room : Room) (response : List ℕ)
    (header_type : Option TraceHeader)
    (h0 : response.getD 5 0 ≠ 0)
    (hn1 : ¬(response.getD 4 0 = room.id * 4 ∧
      response.getD 6 0 = (response.getD 4 0 + response.getD 5 0 +
        (if header_type = some TraceHeader.VALID_CONFIRMATION then 0 else 6)) % 256))
    (hcmd : response.getD 4 0 = room.id * 4 + 1)
    (hchk : response.getD 6 0 = (response.getD 4 0 + response.getD 5 0 +
      (if header_type = some TraceHeader.VALID_CONFIRMATION then 0 else 6)) % 256) :
    room.parse_response response header_type =
      if response.getD 5 0 = 2 then
        ({ room with operation_state := some OperationState.HEAT }, true,
          ((if room.operation_state = some OperationState.HEAT then false else true) &&
            room.updated_callback : Bool))
      else if response.getD 5 0 = 3 then
        ({ room with operation_state := some OperationState.COOL }, true,
          ((if room.operation_state = some OperationState.COOL then false else true) &&
            room.updated_callback : Bool))
      else (room, true, false) := by
  simp only [Room.parse_response]
  rw [if_neg h0, if_neg hn1, if_pos ⟨hcmd, hchk⟩]
  split_ifs <;> simp

/-- Helper: outcome of `Room.parse_response` in the configured-temperature
branch (`cid = id*4 + 2`). -/
theorem parse_conf_branch (room : Room) (response : List ℕ)
    (header_type : Option TraceHeader)
    (h0 : response.getD 5 0 ≠ 0)
    (hn1 : ¬(response.getD 4 0 = room.id * 4 ∧
      response.getD 6 0 = (response.getD 4 0 + response.getD 5 0 +
        (if header_type = some TraceHeader.VALID_CONFIRMATION then 0 else 6)) % 256))
    (hn2 : ¬(response.getD 4 0 = room.id * 4 + 1 ∧
      response.getD 6 0 = (response.getD 4 0 + response.getD 5 0 +
        (if header_type = some TraceHeader.VALID_CONFIRMATION then 0 else 6)) % 256))
    (hcmd : response.getD 4 0 = room.id * 4 + 2)
    (hchk : response.getD 6 0 = (response.getD 4 0 + response.getD 5 0 +
      (if header_type = some TraceHeader.VALID_CONFIRMATION then 0 else 6)) % 256) :
    room.parse_response response header_type =
      ({ room with
          conf_temperature := some (temperature_from_value (response.getD 5 0) 30) },
        true,
        ((if room.conf_temperature =
            some (temperature_from_value (response.getD 5 0) 30)
          then false else true) && room.updated_callback : Bool)) := by
  simp only [Room.parse_response]
  rw [if_neg h0, if_neg hn1, if_neg hn2, if_pos ⟨hcmd, hchk⟩]
  simp

/-- Helper: outcome of `Room.parse_response` in the measured-temperature
branch (`cid = id*4 + 3`). -/
theorem parse_temp_branch (room : Room) (response : List ℕ)
    (header_type : Option TraceHeader)
    (h0 : response.getD 5 0 ≠ 0)
    (hn1 : ¬(response.getD 4 0 = room.id * 4 ∧
      response.getD 6 0 = (response.getD 4 0 + response.getD 5 0 +
        (if header_type = some TraceHeader.VALID_CONFIRMATION then 0 else 6)) % 256))
    (hn2 : ¬(response.getD 4 0 = room.id * 4 + 1 ∧
      response.getD 6 0 = (response.getD 4 0 + response.getD 5 0 +
        (if header_type = some TraceHeader.VALID_CONFIRMATION then 0 else 6)) % 256))
    (hn3 : ¬(response.getD 4 0 = room.id * 4 + 2 ∧
      response.getD 6 0 = (response.getD 4 0 + response.getD 5 0 +
        (if header_type = some TraceHeader.VALID_CONFIRMATION then 0 else 6)) % 256))
    (hcmd : response.getD 4 0 = room.id * 4 + 3)
    (hchk : response.getD 6 0 = (response.getD 4 0 + response.getD 5 0 +
      (if header_type = some TraceHeader.VALID_CONFIRMATION then 0 else 6)) % 256) :
    room.parse_response response header_type =
      ({ room with temperature := some (value_to_ambient (response.getD 5 0)) },
        true,
        ((if room.temperature = some (value_to_ambient (response.getD 5 0))
          then false else true) && room.updated_callback : Bool)) := by
  simp only [Room.parse_response]
  rw [if_neg h0, if_neg hn1, if_neg hn2, if_neg hn3, if_pos ⟨hcmd, hchk⟩]
  simp

/-- Helper: outcome of `Room.parse_response` in the humidity branch
(`cid = id + 0x64`). -/
theorem parse_humidity_branch (room : Room) (response : List ℕ)
    (header_type : Option TraceHeader)
    (h0 : response.getD 5 0 ≠ 0)
    (hn1 : ¬(response.getD 4 0 = room.id * 4 ∧
      response.getD 6 0 = (response.getD 4 0 + response.getD 5 0 +
        (if header_type = some TraceHeader.VALID_CONFIRMATION then 0 else 6)) % 256))
    (hn2 : ¬(response.getD 4 0 = room.id * 4 + 1 ∧
      response.getD 6 0 = (response.getD 4 0 + response.getD 5 0 +
        (if header_type = some TraceHeader.VALID_CONFIRMATION then 0 else 6)) % 256))
    (hn3 : ¬(response.getD 4 0 = room.id * 4 + 2 ∧
      response.getD 6 0 = (response.getD 4 0 + response.getD 5 0 +
        (if header_type = some TraceHeader.VALID_CONFIRMATION then 0 else 6)) % 256))
    (hn4 : ¬(response.getD 4 0 = room.id * 4 + 3 ∧
      response.getD 6 0 = (response.getD 4 0 + response.getD 5 0 +
        (if header_type = some TraceHeader.VALID_CONFIRMATION then 0 else 6)) % 256))
    (hcmd : response.getD 4 0 = room.id + 0x64)
    (hchk : response.getD 6 0 = (response.getD 4 0 + response.getD 5 0 +
      (if header_type = some TraceHeader.VALID_CONFIRMATION then 0 else 6)) % 256) :
    room.parse_response response header_type =
      ({ room with humidity := some (value_to_humidity (response.getD 5 0)) },
        true,
        ((if room.humidity = some (value_to_humidity (response.getD 5 0))
          then false else true) && room.updated_callback : Bool)) := by
  simp only [Room.parse_response]
  rw [if_neg h0, if_neg hn1, if_neg hn2, if_neg hn3, if_neg hn4,
    if_pos ⟨hcmd, hchk⟩]
  simp

/-- Helper: outcome of `Room.parse_response` when no field branch
matches (data nonzero): the room is untouched, the frame unclaimed. -/
theorem parse_unmatched (room : Room) (response : List ℕ)
    (header_type : Option TraceHeader)
    (h0 : response.getD 5 0 ≠ 0)
    (hn1 : ¬(response.getD 4 0 = room.id * 4 ∧
      response.getD 6 0 = (response.getD 4 0 + response.getD 5 0 +
        (if header_type = some TraceHeader.VALID_CONFIRMATION then 0 else 6)) % 256))
    (hn2 : ¬(response.getD 4 0 = room.id * 4 + 1 ∧
      response.getD 6 0 = (response.getD 4 0 + response.getD 5 0 +
        (if header_type = some TraceHeader.VALID_CONFIRMATION then 0 else 6)) % 256))
    (hn3 : ¬(response.getD 4 0 = room.id * 4 + 2 ∧
      response.getD 6 0 = (response.getD 4 0 + response.getD 5 0 +
        (if header_type = some TraceHeader.VALID_CONFIRMATION then 0 else 6)) % 256))
    (hn4 : ¬(response.getD 4 0 = room.id * 4 + 3 ∧
      response.getD 6 0 = (response.getD 4 0 + response.getD 5 0 +
        (if header_type = some TraceHeader.VALID_CONFIRMATION then 0 else 6)) % 256))
    (hn5 : ¬(response.getD 4 0 = room.id + 0x64 ∧
      response.getD 6 0 = (response.getD 4 0 + response.getD 5 0 +
        (if header_type = some TraceHeader.VALID_CONFIRMATION then 0 else 6)) % 256)) :
    room.parse_response response header_type = (room, false, false) := by
  simp only [Room.parse_response]
  rw [if_neg h0, if_neg hn1, if_neg hn2, if_neg hn3, if_neg hn4, if_neg hn5]
  simp

/-- Claim C6: change detection in `Room.parse_response` — the change callback
can only fire when the newly decoded domain value differs from the
stored one (so a fired callback certifies that the room's state really
changed), and the method is idempotent: re-applying any frame to the
room it just produced changes nothing and fires no callback. -/
theorem c6_change_detection (room : Room) (response : List ℕ)
    (header_type : Option TraceHeader) :
    ((room.parse_response response header_type).2.2 = true →
      (room.parse_response response header_type).1 ≠ room) ∧
    ((room.parse_response response header_type).1.parse_response response
        header_type).1 = (room.parse_response response header_type).1 ∧
    ((room.parse_response response header_type).1.parse_response response
        header_type).2.2 = false := by
  obtain ⟨id, st, op, t, ct, hu, cb⟩ := room
  by_cases h0 : response.getD 5 0 = 0
  · simp [parse_keepalive _ _ _ h0]
  · by_cases hchk : response.getD 6 0 = (response.getD 4 0 + response.getD 5 0 +
        (if header_type = some TraceHeader.VALID_CONFIRMATION then 0 else 6)) % 256
    · by_cases hc1 : response.getD 4 0 = id * 4
      · have e1 := parse_state_branch ⟨id, st, op, t, ct, hu, cb⟩
          response header_type h0 hc1 hchk
        by_cases hv3 : response.getD 5 0 = 3
        · rw [if_pos hv3] at e1
          have e2 := parse_state_branch ⟨id, some State.ON, op, t, ct, hu, cb⟩
            response header_type h0 hc1 hchk
          rw [if_pos hv3] at e2
          dsimp only [] at e1 e2
          refine ⟨?_, ?_, ?_⟩
          · simp only [e1]
            intro hf hEq
            injection hEq with h1 h2 h3 h4 h5 h6 h7
            rw [← h2] at hf
            simp at hf
          · simp only [e1, e2]
          · simp only [e1, e2]; simp
        · by_cases hv2 : response.getD 5 0 = 2
          · rw [if_neg hv3, if_pos hv2] at e1
            have e2 := parse_state_branch ⟨id, some State.OFF, op, t, ct, hu, cb⟩
              response header_type h0 hc1 hchk
            rw [if_neg hv3, if_pos hv2] at e2
            dsimp only [] at e1 e2
            refine ⟨?_, ?_, ?_⟩
            · simp only [e1]
              intro hf hEq
              injection hEq with h1 h2 h3 h4 h5 h6 h7
              rw [← h2] at hf
              simp at hf
            · simp only [e1, e2]
            · simp only [e1, e2]; simp
          · rw [if_neg hv3, if_neg hv2] at e1
            refine ⟨?_, ?_, ?_⟩ <;> simp [e1]
      · by_cases hc2 : response.getD 4 0 = id * 4 + 1
        · have e1 := parse_mode_branch ⟨id, st, op, t, ct, hu, cb⟩
            response header_type h0 (fun hc => hc1 hc.1) hc2 hchk
          by_cases hv2 : response.getD 5 0 = 2
          · rw [if_pos hv2] at e1
            have e2 := parse_mode_branch
              ⟨id, st, some OperationState.HEAT, t, ct, hu, cb⟩
              response header_type h0 (fun hc => hc1 hc.1) hc2 hchk
            rw [if_pos hv2] at e2
            dsimp only [] at e1 e2
            refine ⟨?_, ?_, ?_⟩
            · simp only [e1]
              intro hf hEq
              injection hEq with h1 h2 h3 h4 h5 h6 h7
              rw [← h3] at hf
              simp at hf
            · simp only [e1, e2]
            · simp only [e1, e2]; simp
          · by_cases hv3 : response.getD 5 0 = 3
            · rw [if_neg hv2, if_pos hv3] at e1
              have e2 := parse_mode_branch
                ⟨id, st, some OperationState.COOL, t, ct, hu, cb⟩
                response header_type h0 (fun hc => hc1 hc.1) hc2 hchk
              rw [if_neg hv2, if_pos hv3] at e2
              dsimp only [] at e1 e2
              refine ⟨?_, ?_, ?_⟩
              · simp only [e1]
                intro hf hEq
                injection hEq with h1 h2 h3 h4 h5 h6 h7
                rw [← h3] at hf
                simp at hf
              · simp only [e1, e2]
              · simp only [e1, e2]; simp
            · rw [if_neg hv2, if_neg hv3] at e1
              refine ⟨?_, ?_, ?_⟩ <;> simp [e1]
        · by_cases hc3 : response.getD 4 0 = id * 4 + 2
          · have e1 := parse_conf_branch ⟨id, st, op, t, ct, hu, cb⟩
              response header_type h0 (fun hc => hc1 hc.1) (fun hc => hc2 hc.1)
              hc3 hchk
            have e2 := parse_conf_branch
              ⟨id, st, op, t, some (temperature_from_value (response.getD 5 0) 30),
                hu, cb⟩
              response header_type h0 (fun hc => hc1 hc.1) (fun hc => hc2 hc.1)
              hc3 hchk
            dsimp only [] at e1 e2
            refine ⟨?_, ?_, ?_⟩
            · simp only [e1]
              intro hf hEq
              injection hEq with h1 h2 h3 h4 h5 h6 h7
              rw [← h5] at hf
              simp at hf
            · simp only [e1, e2]
            · simp only [e1, e2]; simp
          · by_cases hc4 : response.getD 4 0 = id * 4 + 3
            · have e1 := parse_temp_branch ⟨id, st, op, t, ct, hu, cb⟩
                response header_type h0 (fun hc => hc1 hc.1) (fun hc => hc2 hc.1)
                (fun hc => hc3 hc.1) hc4 hchk
              have e2 := parse_temp_branch
                ⟨id, st, op, some (value_to_ambient (response.getD 5 0)), ct,
                  hu, cb⟩
                response header_type h0 (fun hc => hc1 hc.1) (fun hc => hc2 hc.1)
                (fun hc => hc3 hc.1) hc4 hchk
              dsimp only [] at e1 e2
              refine ⟨?_, ?_, ?_⟩
              · simp only [e1]
                intro hf hEq
                injection hEq with h1 h2 h3 h4 h5 h6 h7
                rw [← h4] at hf
                simp at hf
              · simp only [e1, e2]
              · simp only [e1, e2]; simp
            · by_cases hc5 : response.getD 4 0 = id + 0x64
              · have e1 := parse_humidity_branch ⟨id, st, op, t, ct, hu, cb⟩
                  response header_type h0 (fun hc => hc1 hc.1) (fun hc => hc2 hc.1)
                  (fun hc => hc3 hc.1) (fun hc => hc4 hc.1) hc5 hchk
                have e2 := parse_humidity_branch
                  ⟨id, st, op, t, ct,
                    some (value_to_humidity (response.getD 5 0)), cb⟩
                  response header_type h0 (fun hc => hc1 hc.1) (fun hc => hc2 hc.1)
                  (fun hc => hc3 hc.1) (fun hc => hc4 hc.1) hc5 hchk
                dsimp only [] at e1 e2
                refine ⟨?_, ?_, ?_⟩
                · simp only [e1]
                  intro hf hEq
                  injection hEq with h1 h2 h3 h4 h5 h6 h7
                  rw [← h6] at hf
                  simp at hf
                · simp only [e1, e2]
                · simp only [e1, e2]; simp
              · have e1 := parse_unmatched ⟨id, st, op, t, ct, hu, cb⟩
                  response header_type h0 (fun hc => hc1 hc.1) (fun hc => hc2 hc.1)
                  (fun hc => hc3 hc.1) (fun hc => hc4 hc.1) (fun hc => hc5 hc.1)
                refine ⟨?_, ?_, ?_⟩ <;> simp [e1]
    · have e1 := parse_unmatched ⟨id, st, op, t, ct, hu, cb⟩
        response header_type h0 (fun hc => hchk hc.2) (fun hc => hchk hc.2)
        (fun hc => hchk hc.2) (fun hc => hchk hc.2) (fun hc => hchk hc.2)
      refine ⟨?_, ?_, ?_⟩ <;> simp [e1]

/-- Witness for C6 at a concrete input: a power-ON answer frame for
room 0 (`cid=0`, `data=3`, checksum `(0+3+6)%256 = 9`) applied to a fresh
room with a registered callback fires the callback, certifying a real
state change. -/
theorem c6_change_detection_witness :
    ({ Room.init 0 with updated_callback := true }.parse_response
        [0x3B, 0x01, 0x01, 0x04, 0x00, 0x03, 0x09]
        (some TraceHeader.VALID_ANSWER)).1 ≠
      { Room.init 0 with updated_callback := true } :=
  (c6_change_detection { Room.init 0 with updated_callback := true }
    [0x3B, 0x01, 0x01, 0x04, 0x00, 0x03, 0x09]
    (some TraceHeader.VALID_ANSWER)).1 (by decide)

/-- Helper: the registry's `_parse_response` rejects a frame with a
mismatched checksum without touching the connector or emitting events. -/
theorem registry_bad_checksum (conn : TermowifiConnector) (response : List ℕ)
    (header_type : Option TraceHeader)
    (hbad : response.getD 6 0 ≠ (response.getD 4 0 + response.getD 5 0 +
      (if header_type = some TraceHeader.VALID_CONFIRMATION then 0 else 6)) % 256) :
    conn.parse_response_reg response header_type = (conn, false, []) := by
  simp only [TermowifiConnector.parse_response_reg]
  rw [if_pos hbad]

/-- Helper: under a mismatched checksum, `Room.parse_response` leaves the
room untouched and fires nothing (though a `0x00` data byte still marks
the frame processed). -/
theorem parse_room_bad_checksum (room : Room) (response : List ℕ)
    (header_type : Option TraceHeader)
    (hbad : response.getD 6 0 ≠ (response.getD 4 0 + response.getD 5 0 +
      (if header_type = some TraceHeader.VALID_CONFIRMATION then 0 else 6)) % 256) :
    (room.parse_response response header_type).1 = room ∧
    (room.parse_response response header_type).2.2 = false := by
  by_cases h0 : response.getD 5 0 = 0
  · rw [parse_keepalive room response header_type h0]
    exact ⟨rfl, rfl⟩
  · rw [parse_unmatched room response header_type h0
      (fun hc => hbad hc.2) (fun hc => hbad hc.2) (fun hc => hbad hc.2)
      (fun hc => hbad hc.2) (fun hc => hbad hc.2)]
    exact ⟨rfl, rfl⟩

/-- Helper: if every room's `parse_response` on this frame leaves the
room unchanged and fires nothing, the room loop leaves the room list
unchanged and emits no events. -/
theorem dispatch_rooms_no_change (rooms : List (ℕ × Room)) (response : List ℕ)
    (header_type : Option TraceHeader)
    (hall : ∀ room : Room, (room.parse_response response header_type).1 = room ∧
      (room.parse_response response header_type).2.2 = false) :
    (dispatch_rooms rooms response header_type).1 = rooms ∧
    (dispatch_rooms rooms response header_type).2.2 = [] := by
  induction rooms with
  | nil => simp [dispatch_rooms]
  | cons p rest ih =>
    obtain ⟨rid, room⟩ := p
    obtain ⟨hr1, hr2⟩ := hall room
    simp only [dispatch_rooms]
    by_cases hp : (room.parse_response response header_type).2.1 = true
    · simp [hp, hr1, hr2]
    · simp only [Bool.not_eq_true] at hp
      simp [hp, hr1, ih]

/-- Claim C8: a 7-byte frame with a recognized inbound header class whose
trailing byte disagrees with the checksum computed for that class is
discarded by `process_socket_response` without changing any room,
without creating a room, and without emitting any event (the embedding
is total, so no exception path exists). -/
theorem c8_bad_checksum_discarded (conn : TermowifiConnector)
    (response : List ℕ) (h : TraceHeader)
    (_hlen : response.length = 7)
    (hvh : valid_header_response response = some h)
    (hbad : response.getD 6 0 ≠ (response.getD 4 0 + response.getD 5 0 +
      (if h = TraceHeader.VALID_CONFIRMATION then 0 else 6)) % 256) :
    (conn.process_socket_response response).1 = conn ∧
    (conn.process_socket_response response).2.1 = [] := by
  have hbad' : response.getD 6 0 ≠ (response.getD 4 0 + response.getD 5 0 +
      (if (some h : Option TraceHeader) = some TraceHeader.VALID_CONFIRMATION
        then 0 else 6)) % 256 := by
    simpa using hbad
  have hdisp := dispatch_rooms_no_change conn.rooms response (some h)
    (fun room => parse_room_bad_checksum room response (some h) hbad')
  simp only [TermowifiConnector.process_socket_response, hvh,
    registry_bad_checksum conn response (some h) hbad']
  rcases hopt : (dispatch_rooms conn.rooms response (some h)).2.1 with _ | rid <;>
    simp [hopt, hdisp.1, hdisp.2]

/-- Witness for C8: a VALID_ANSWER frame whose trailing byte `0xFF`
differs from the expected `(3 + 33 + 6) % 256 = 42`, processed by a
connector with one partially populated room, changes nothing. -/
theorem c8_bad_checksum_discarded_witness :
    ((TermowifiConnector.mk [(0, { Room.init 0 with state := some State.ON })]
      ).process_socket_response [0x3B, 0x01, 0x01, 0x04, 0x03, 0x21, 0xFF]).1 =
      TermowifiConnector.mk [(0, { Room.init 0 with state := some State.ON })] ∧
    ((TermowifiConnector.mk [(0, { Room.init 0 with state := some State.ON })]
      ).process_socket_response [0x3B, 0x01, 0x01, 0x04, 0x03, 0x21, 0xFF]).2.1 =
      [] :=
  c8_bad_checksum_discarded
    (TermowifiConnector.mk [(0, { Room.init 0 with state := some State.ON })])
    [0x3B, 0x01, 0x01, 0x04, 0x03, 0x21, 0xFF] TraceHeader.VALID_ANSWER
    (by decide) (by decide) (by decide)

/-- Claim C10 counterexample: the claim says the first room iterated consumes
every 0x00-data frame under a recognized inbound header, but the
dispatch loop runs only after the registry's `_parse_response`, so a
checksum-valid discovery frame (`3B 01 01 04 32 00 38`, data `0x00`) is
consumed by the registry even when rooms exist: the consumer is
`registry`, not `room 0`, and no room's `parse_response` runs. -/
theorem c10_first_room_counterexample :
    valid_header_response [0x3B, 0x01, 0x01, 0x04, 0x32, 0x00, 0x38] =
      some TraceHeader.VALID_ANSWER ∧
    ([0x3B, 0x01, 0x01, 0x04, 0x32, 0x00, 0x38] : List ℕ).getD 5 0 = 0 ∧
    (TermowifiConnector.mk [(0, Room.init 0)]).rooms ≠ [] ∧
    ((TermowifiConnector.mk [(0, Room.init 0)]).process_socket_response
        [0x3B, 0x01, 0x01, 0x04, 0x32, 0x00, 0x38]).2.2 = Consumer.registry ∧
    Consumer.registry ≠ Consumer.room 0 := by
  refine ⟨rfl, rfl, by decide, ?_, by decide⟩
  decide

/-- Claim C10 (amended): `Room.parse_response` returns True on any frame whose
data byte is `0x00`, for any room, without inspecting the checksum or the
cid (the conclusion does not depend on them); consequently, whenever such
a frame is not consumed by the registry's discovery path first (which
happens exactly when its checksum is valid and its cid lies in
`[0x32, 0x36]`), the first room of the dispatch loop consumes it — in
particular every 0x00-data frame with a foreign cid or an invalid
checksum — leaving the connector unchanged and emitting no event. -/
theorem c10_first_room_consumes_keepalive :
    (∀ (room : Room) (response : List ℕ) (h : TraceHeader),
      response.getD 5 0 = 0 →
      room.parse_response response (some h) = (room, true, false)) ∧
    (∀ (conn : TermowifiConnector) (response : List ℕ) (h : TraceHeader)
      (rid : ℕ) (room : Room) (rest : List (ℕ × Room)),
      valid_header_response response = some h →
      response.getD 5 0 = 0 →
      conn.rooms = (rid, room) :: rest →
      ¬(response.getD 6 0 = (response.getD 4 0 + response.getD 5 0 +
          (if h = TraceHeader.VALID_CONFIRMATION then 0 else 6)) % 256 ∧
        0x32 ≤ response.getD 4 0 ∧ response.getD 4 0 ≤ 0x36) →
      conn.process_socket_response response = (conn, [], Consumer.room rid)) := by
  constructor
  · intro room response h hdata
    exact parse_keepalive room response (some h) hdata
  · intro conn response h rid room rest hvh hdata hrooms hnot
    have hpr : (conn.parse_response_reg response (some h)).2.1 = false := by
      rw [Bool.eq_false_iff, Ne, registry_processed_iff]
      intro ⟨hc, hr1, hr2, _⟩
      exact hnot ⟨by simpa using hc, hr1, hr2⟩
    have hdisp : dispatch_rooms conn.rooms response (some h) =
        ((rid, room) :: rest, some rid, []) := by
      rw [hrooms]
      simp only [dispatch_rooms, parse_keepalive room response (some h) hdata]
      norm_num
    simp only [TermowifiConnector.process_socket_response, hvh]
    rw [Bool.eq_false_iff] at hpr
    simp only [Bool.not_eq_true] at hpr
    simp only [hpr, hdisp]
    rw [← hrooms]
    rfl

/-- Witness for the amended C10: a 0x00-data VALID_ANSWER frame with a
wrong checksum on a connector holding room 3 is consumed by that first
(and only) room, leaving everything unchanged. -/
theorem c10_first_room_consumes_keepalive_witness :
    (TermowifiConnector.mk [(3, Room.init 3)]).process_socket_response
        [0x3B, 0x01, 0x01, 0x04, 0x32, 0x00, 0xFF] =
      (TermowifiConnector.mk [(3, Room.init 3)], [], Consumer.room 3) :=
  c10_first_room_consumes_keepalive.2
    (TermowifiConnector.mk [(3, Room.init 3)])
    [0x3B, 0x01, 0x01, 0x04, 0x32, 0x00, 0xFF]
    TraceHeader.VALID_ANSWER 3 (Room.init 3) []
    rfl rfl rfl (by decide)

/-- Helper: effect of one checksum-valid VALID_ANSWER discovery frame
(data `0x00`, cid in `[0x32, 0x36]`) on the registry: consumed by the
discovery path; a new room with id `cid - 0x32` is appended and announced
exactly when that id is unseen. -/
theorem process_discovery (conn : TermowifiConnector) (f : List ℕ)
    (h4 : f.take 4 = TraceHeader.VALID_ANSWER.value)
    (hdata : f.getD 5 0 = 0)
    (hc1 : 0x32 ≤ f.getD 4 0) (hc2 : f.getD 4 0 ≤ 0x36)
    (hchk : f.getD 6 0 = (f.getD 4 0 + f.getD 5 0 + 6) % 256) :
    conn.process_socket_response f =
      if (f.getD 4 0 - 0x32) ∈ conn.rooms.map Prod.fst then
        (conn, [], Consumer.registry)
      else
        ({ rooms := conn.rooms ++
            [(f.getD 4 0 - 0x32, Room.init (f.getD 4 0 - 0x32))] },
          [TEvent.newRoom (f.getD 4 0 - 0x32)], Consumer.registry) := by
  have hvh : valid_header_response f = some TraceHeader.VALID_ANSWER := by
    simp [valid_header_response, h4]
  have hreg : conn.parse_response_reg f (some TraceHeader.VALID_ANSWER) =
      if (f.getD 4 0 - 0x32) ∈ conn.rooms.map Prod.fst then (conn, true, [])
      else ({ rooms := conn.rooms ++
          [(f.getD 4 0 - 0x32, Room.init (f.getD 4 0 - 0x32))] },
        true, [TEvent.newRoom (f.getD 4 0 - 0x32)]) := by
    simp only [TermowifiConnector.parse_response_reg]
    rw [hchk, hdata]
    rw [if_neg (show ¬((some TraceHeader.VALID_ANSWER : Option TraceHeader) =
      some TraceHeader.VALID_CONFIRMATION) by simp)]
    rw [if_neg (fun hne => hne rfl), if_pos ⟨hc1, hc2⟩, if_pos rfl]
  simp only [TermowifiConnector.process_socket_response, hvh, hreg]
  by_cases hmem : (f.getD 4 0 - 0x32) ∈ conn.rooms.map Prod.fst
  · simp only [if_pos hmem]
    norm_num
  · simp only [if_neg hmem]
    norm_num

/-- Helper: folding any list of checksum-valid discovery frames over the
registry appends one fresh `Room` per previously unseen id, announces
each exactly once, and does nothing else. -/
theorem process_all_discovery (frames : List (List ℕ)) :
    ∀ conn : TermowifiConnector,
      (∀ f ∈ frames, f.take 4 = TraceHeader.VALID_ANSWER.value ∧
        f.getD 5 0 = 0 ∧ 0x32 ≤ f.getD 4 0 ∧ f.getD 4 0 ≤ 0x36 ∧
        f.getD 6 0 = (f.getD 4 0 + f.getD 5 0 + 6) % 256) →
      ∃ new : List ℕ,
        (conn.process_all frames).1.rooms =
          conn.rooms ++ new.map (fun i => (i, Room.init i)) ∧
        (conn.process_all frames).2 = new.map TEvent.newRoom ∧
        new.Nodup ∧
        (∀ i ∈ new, i ∉ conn.rooms.map Prod.fst ∧
          ∃ f ∈ frames, f.getD 4 0 - 0x32 = i) ∧
        (∀ f ∈ frames, f.getD 4 0 - 0x32 ∈ conn.rooms.map Prod.fst ∨
          f.getD 4 0 - 0x32 ∈ new) := by
  induction frames with
  | nil =>
    intro conn _
    exact ⟨[], by simp [TermowifiConnector.process_all],
      by simp [TermowifiConnector.process_all], List.nodup_nil,
      by simp, by simp⟩
  | cons f rest ih =>
    intro conn hprops
    obtain ⟨h4, hdata, hc1, hc2, hchk⟩ := hprops f (List.mem_cons_self f rest)
    have hstep := process_discovery conn f h4 hdata hc1 hc2 hchk
    by_cases hmem : (f.getD 4 0 - 0x32) ∈ conn.rooms.map Prod.fst
    · rw [if_pos hmem] at hstep
      obtain ⟨new, e1, e2, e3, e4, e5⟩ :=
        ih conn (fun g hg => hprops g (List.mem_cons_of_mem f hg))
      refine ⟨new, ?_, ?_, e3, ?_, ?_⟩
      · simpa [TermowifiConnector.process_all, hstep] using e1
      · simpa [TermowifiConnector.process_all, hstep] using e2
      · intro i hi
        obtain ⟨hnotin, g, hg, hgi⟩ := e4 i hi
        exact ⟨hnotin, g, List.mem_cons_of_mem f hg, hgi⟩
      · intro g hg
        rcases List.mem_cons.mp hg with rfl | hg'
        · exact Or.inl hmem
        · exact e5 g hg'
    · rw [if_neg hmem] at hstep
      obtain ⟨new, e1, e2, e3, e4, e5⟩ :=
        ih { rooms := conn.rooms ++
            [(f.getD 4 0 - 0x32, Room.init (f.getD 4 0 - 0x32))] }
          (fun g hg => hprops g (List.mem_cons_of_mem f hg))
      refine ⟨(f.getD 4 0 - 0x32) :: new, ?_, ?_, ?_, ?_, ?_⟩
      · simp only [TermowifiConnector.process_all, hstep]
        rw [e1]
        simp [List.append_assoc]
      · simp only [TermowifiConnector.process_all, hstep]
        rw [e2]
        simp
      · refine List.nodup_cons.mpr ⟨?_, e3⟩
        intro hin
        obtain ⟨hnot, -⟩ := e4 _ hin
        exact hnot (by simp)
      · intro j hj
        rcases List.mem_cons.mp hj with rfl | hj'
        · exact ⟨hmem, f, List.mem_cons_self f rest, rfl⟩
        · obtain ⟨hnot, g, hg, hgj⟩ := e4 j hj'
          exact ⟨fun hin => hnot (by simp [hin]), g,
            List.mem_cons_of_mem f hg, hgj⟩
      · intro g hg
        rcases List.mem_cons.mp hg with rfl | hg'
        · exact Or.inr (List.mem_cons_self _ _)
        · rcases e5 g hg' with hin | hin
          · simp only [List.map_append] at hin
            rcases List.mem_append.mp hin with hl | hr
            · exact Or.inl hl
            · simp only [List.map_cons, List.map_nil, List.mem_singleton] at hr
              exact Or.inr (by rw [hr]; exact List.mem_cons_self _ _)
          · exact Or.inr (List.mem_cons_of_mem _ hin)

/-- Claim C5: feeding the registry any sequence of checksum-valid VALID_ANSWER
frames with data `0x00` whose cids range over `[0x32, 0x36]` — with all
five cids covered and arbitrary repetitions — produces exactly five
rooms, ids `0..4` (`room_id = cid - 0x32`), each a fresh `Room`, and
publishes the room-discovered event exactly once per id (five events in
total, never repeated for a repeated frame). -/
theorem c5_discovery (frames : List (List ℕ))
    (hprops : ∀ f ∈ frames, f.take 4 = TraceHeader.VALID_ANSWER.value ∧
      f.getD 5 0 = 0 ∧ 0x32 ≤ f.getD 4 0 ∧ f.getD 4 0 ≤ 0x36 ∧
      f.getD 6 0 = (f.getD 4 0 + f.getD 5 0 + 6) % 256)
    (hcover : ∀ c, 0x32 ≤ c → c ≤ 0x36 → ∃ f ∈ frames, f.getD 4 0 = c) :
    (((TermowifiConnector.mk []).process_all frames).1.rooms.map Prod.fst).Perm
      [0, 1, 2, 3, 4] ∧
    (∀ p ∈ ((TermowifiConnector.mk []).process_all frames).1.rooms,
      p.2 = Room.init p.1) ∧
    (∀ i, i ≤ 4 →
      ((TermowifiConnector.mk []).process_all frames).2.count
        (TEvent.newRoom i) = 1) ∧
    ((TermowifiConnector.mk []).process_all frames).2.length = 5 := by
  obtain ⟨new, e1, e2, e3, e4, e5⟩ :=
    process_all_discovery frames (TermowifiConnector.mk []) hprops
  have hmemiff : ∀ i, i ∈ new ↔ i ∈ [0, 1, 2, 3, 4] := by
    intro i
    constructor
    · intro hi
      obtain ⟨-, g, hg, hgi⟩ := e4 i hi
      obtain ⟨-, -, hgc1, hgc2, -⟩ := hprops g hg
      simp only [List.mem_cons, List.not_mem_nil, or_false]
      omega
    · intro hi
      simp only [List.mem_cons, List.not_mem_nil, or_false] at hi
      have hi4 : i ≤ 4 := by rcases hi with rfl | rfl | rfl | rfl | rfl <;> omega
      obtain ⟨g, hg, hgc⟩ := hcover (i + 0x32) (by omega) (by omega)
      have h5 := e5 g hg
      simp only [List.map_nil, List.not_mem_nil, false_or] at h5
      rwa [hgc, Nat.add_sub_cancel] at h5
  have hperm : new.Perm [0, 1, 2, 3, 4] :=
    (List.perm_ext_iff_of_nodup e3 (by decide)).mpr hmemiff
  refine ⟨?_, ?_, ?_, ?_⟩
  · rw [e1]
    simpa [Function.comp_def] using hperm
  · intro p hp
    rw [e1] at hp
    simp only [List.nil_append, List.mem_map] at hp
    obtain ⟨i, -, rfl⟩ := hp
    rfl
  · intro i hi
    rw [e2, List.count_map_of_injective new TEvent.newRoom
      (fun a b hab => by injection hab)]
    exact List.count_eq_one_of_mem e3
      ((hmemiff i).mpr (by simp only [List.mem_cons, List.not_mem_nil, or_false]; omega))
  · rw [e2]
    simp [hperm.length_eq]

/-- Witness for C5: the five discovery frames for cids `0x32..0x36`, with
the first repeated at the end, yield rooms `0..4` exactly. -/
theorem c5_discovery_witness :
    (((TermowifiConnector.mk []).process_all
        [[0x3B, 0x01, 0x01, 0x04, 0x32, 0x00, 0x38],
          [0x3B, 0x01, 0x01, 0x04, 0x33, 0x00, 0x39],
          [0x3B, 0x01, 0x01, 0x04, 0x34, 0x00, 0x3A],
          [0x3B, 0x01, 0x01, 0x04, 0x35, 0x00, 0x3B],
          [0x3B, 0x01, 0x01, 0x04, 0x36, 0x00, 0x3C],
          [0x3B, 0x01, 0x01, 0x04, 0x32, 0x00, 0x38]]).1.rooms.map
      Prod.fst).Perm [0, 1, 2, 3, 4] :=
  (c5_discovery _ (by decide) (by
    intro c h1 h2
    interval_cases c
    · exact ⟨[0x3B, 0x01, 0x01, 0x04, 0x32, 0x00, 0x38], by simp, rfl⟩
    · exact ⟨[0x3B, 0x01, 0x01, 0x04, 0x33, 0x00, 0x39], by simp, rfl⟩
    · exact ⟨[0x3B, 0x01, 0x01, 0x04, 0x34, 0x00, 0x3A], by simp, rfl⟩
    · exact ⟨[0x3B, 0x01, 0x01, 0x04, 0x35, 0x00, 0x3B], by simp, rfl⟩
    · exact ⟨[0x3B, 0x01, 0x01, 0x04, 0x36, 0x00, 0x3C], by simp, rfl⟩)).1

/-- Claim C4: on a connector that knows room 1, `set_temperature(room_id=1,
temperature=22.0)` builds the frame `SEND_COMMAND header ++ [cid=6,
data=44, checksum=53]` (`cid = 2 + 1*4`, `data = int((22-15)/0.5) + 30`,
`checksum = (6 + 44 + 3) % 256`) and writes this identical frame exactly
twice in direct succession. -/
theorem c4_set_temperature_frame (conn : TermowifiConnector) (room : Room)
    (hlookup : conn.rooms.lookup 1 = some room) (hid : room.id = 1) :
    conn.set_temperature 1 22 =
      some [[0x3B, 0x01, 0xFE, 0x04, 6, 44, 53],
        [0x3B, 0x01, 0xFE, 0x04, 6, 44, 53]] := by
  simp only [TermowifiConnector.set_temperature, hlookup, hid]
  norm_num [change_temperature_trace, value_from_temperature, pyInt,
    pyBytes3, TraceHeader.value]
  decide

/-- Witness for C4: a connector holding exactly room 1. -/
theorem c4_set_temperature_frame_witness :
    (TermowifiConnector.mk [(1, Room.init 1)]).set_temperature 1 22 =
      some [[0x3B, 0x01, 0xFE, 0x04, 6, 44, 53],
        [0x3B, 0x01, 0xFE, 0x04, 6, 44, 53]] :=
  c4_set_temperature_frame (TermowifiConnector.mk [(1, Room.init 1)])
    (Room.init 1) rfl rfl

/-- Claim C1: the claim asserts `ambient_to_value (value_to_ambient v) = v` on
the ambient byte range, but the code's `ambient_to_value` adds the
temperature to 45.5 instead of subtracting it from 45.5 (and its own doc
string describes the inverse of `value_to_ambient`), so the round trip
evaluates to `324 - v`: at the in-range byte `v = 72`
(`value_to_ambient 72 = 45`), the round trip returns `252`, not `72`. -/
theorem c1_ambient_roundtrip_bug :
    ambient_to_value (value_to_ambient 72) = 252 ∧
    ambient_to_value (value_to_ambient 72) ≠ 72 ∧
    ∀ v : ℚ, ambient_to_value (value_to_ambient v) = 324 - v := by
  refine ⟨by norm_num [value_to_ambient, ambient_to_value], ?_, ?_⟩
  · norm_num [value_to_ambient, ambient_to_value]
  · intro v
    field_simp [value_to_ambient, ambient_to_value]
    ring

/-- Claim C3: applying the frame `3B 01 01 04 03 21 2A` (VALID_ANSWER, cid 3 =
room 0's measured temperature, data 0x21 = 33, checksum
`(3 + 33 + 6) % 256 = 42 = 0x2A`) to a room fresh out of `Room.__init__(0)`
sets exactly the measured temperature to `45.5 - (33 - 71) * 0.5 = 64.5`,
leaves every other field unknown, and reports the frame processed; the
change-callback guard `processed and value_changed and
self.updated_callback` then invokes the callback exactly once when the
host has registered one (as `climate.py` does on entity creation), and
cannot invoke it at all straight out of `__init__`, where
`updated_callback` is still `None`. -/
theorem c3_measured_temperature_scenario :
    ((3 + 33 + 6) % 256 = 42 ∧ (0x2A : ℕ) = 42) ∧
    value_to_ambient 33 = 45.5 - ((33 : ℚ) - 71) * (1 / 2) ∧
    ({ Room.init 0 with updated_callback := true }.parse_response
        [0x3B, 0x01, 0x01, 0x04, 0x03, 0x21, 0x2A]
        (some TraceHeader.VALID_ANSWER) =
      ({ Room.init 0 with
          temperature := some (45.5 - ((33 : ℚ) - 71) * (1 / 2))
          updated_callback := true }, true, true)) ∧
    ((Room.init 0).parse_response
        [0x3B, 0x01, 0x01, 0x04, 0x03, 0x21, 0x2A]
        (some TraceHeader.VALID_ANSWER) =
      ({ Room.init 0 with
          temperature := some (45.5 - ((33 : ℚ) - 71) * (1 / 2)) },
        true, false)) := by
  refine ⟨by norm_num, by norm_num [value_to_ambient], ?_, ?_⟩ <;>
    norm_num [Room.parse_response, Room.init, value_to_ambient,
      valid_answer_ne_confirmation]
  decide

/-- Claim C7: the `0x00` keep-alive guard sits before every field branch of
`Room.parse_response`: any frame whose data byte (index 5) is `0x00`
returns `processed = True` immediately, with every field of the room
untouched and no change callback fired. -/
theorem c7_keepalive_noop (room : Room) (response : List ℕ)
    (header_type : Option TraceHeader)
    (hdata : response.getD 5 0 = 0) :
    room.parse_response response header_type = (room, true, false) := by
  simp only [Room.parse_response, hdata]
  norm_num

/-- Witness for C7 at a concrete input: a VALID_ANSWER frame carrying the
cid of room 0's humidity channel with data `0x00` and a wrong checksum is
still a pure no-op on a fresh room. -/
theorem c7_keepalive_noop_witness :
    (Room.init 0).parse_response [0x3B, 0x01, 0x01, 0x04, 0x64, 0x00, 0xAB]
      (some TraceHeader.VALID_ANSWER) = (Room.init 0, true, false) :=
  c7_keepalive_noop (Room.init 0) [0x3B, 0x01, 0x01, 0x04, 0x64, 0x00, 0xAB]
    (some TraceHeader.VALID_ANSWER) (by decide)

/-- Helper invariant for the supervisor backoff: folding any event
sequence from a backoff already inside `[1, 60]` stays inside `[1, 60]`. -/
theorem backoff_foldl_bounds (events : List ConnEvent) :
    ∀ acc : ℕ × List ℕ, 1 ≤ acc.1 → acc.1 ≤ 60 →
      1 ≤ (events.foldl backoff_step acc).1 ∧
        (events.foldl backoff_step acc).1 ≤ 60 := by
  induction events with
  | nil => exact fun acc h1 h2 => ⟨h1, h2⟩
  | cons e rest ih =>
    intro acc h1 h2
    cases e with
    | success => exact ih (1, acc.2) le_rfl (by norm_num)
    | failure =>
      refine ih (min (acc.1 * 2) 60, acc.2 ++ [acc.1]) ?_ ?_ <;> omega

/-- Claim C9: the supervisor loop's backoff starts at 1, each failure sleeps
the current backoff and then replaces it by `min(backoff * 2, 60)`, each
success resets it to 1, and in every reachable state the backoff stays
within `[1, 60]`. -/
theorem c9_backoff_invariant :
    backoff_run [] = (1, []) ∧
    (∀ events, backoff_run (events ++ [ConnEvent.success]) =
      (1, (backoff_run events).2)) ∧
    (∀ events, backoff_run (events ++ [ConnEvent.failure]) =
      (min ((backoff_run events).1 * 2) 60,
        (backoff_run events).2 ++ [(backoff_run events).1])) ∧
    (∀ events, 1 ≤ (backoff_run events).1 ∧ (backoff_run events).1 ≤ 60) := by
  refine ⟨rfl, ?_, ?_, ?_⟩
  · intro events
    simp [backoff_run, List.foldl_append, backoff_step]
  · intro events
    simp [backoff_run, List.foldl_append, backoff_step]
  · intro events
    exact backoff_foldl_bounds events (1, []) le_rfl (by norm_num)
end Termowifi
